import Mathlib

/-
Verification of the session-monitoring core of ReinaManager
(src/src-tauri/src/utils/game_monitor.rs).

The OS-facing primitives (process liveness, foreground window ownership,
window visibility, directory enumeration of PIDs, event emission to the
frontend, and the wall clock) are abstracted into a per-tick snapshot
`Env`.  Every definition below is a direct shallow embedding of the Rust
source: `select_best_pid` embeds the function of the same name, `step`
embeds one iteration of the polling loop in `run_game_monitor`,
`final_minutes` embeds the rounding performed after the loop, and
`monitorRun` embeds the whole of `run_game_monitor` (with a fuel bound on
the number of loop iterations).
-/

namespace GameMonitor

/-- Kind tags for the four frontend events emitted by the monitor. -/
inductive EventKind
  | started
  | switched
  | progress
  | ended
deriving DecidableEq

/-- Events emitted to the frontend, with their exact payload fields
(game-session-started, game-process-switched, game-time-update,
game-session-ended in the Rust source). -/
inductive Event
  | started (gameId processId startTime : Nat)
  | switched (gameId newProcessId : Nat)
  | progress (gameId totalMinutes totalSeconds startTime currentTime processId : Nat)
  | ended (gameId startTime endTime totalMinutes totalSeconds processId : Nat)
deriving DecidableEq

/-- Kind of an event. -/
def Event.kind : Event → EventKind
  | Event.started _ _ _ => EventKind.started
  | Event.switched _ _ => EventKind.switched
  | Event.progress _ _ _ _ _ _ => EventKind.progress
  | Event.ended _ _ _ _ _ _ => EventKind.ended

/-- Game id carried by an event (every payload starts with gameId). -/
def Event.gameId : Event → Nat
  | Event.started g _ _ => g
  | Event.switched g _ => g
  | Event.progress g _ _ _ _ _ => g
  | Event.ended g _ _ _ _ _ => g

/-- Boolean kind test, used with List.countP. -/
def isKind (k : EventKind) (e : Event) : Bool :=
  e.kind == k

/-- Snapshot of the OS and of the event sink during one poll tick:
`running` embeds is_process_running, `foreground` embeds
is_window_foreground_for_pid, `hasWindow` embeds has_window_for_pid,
`dirPids` embeds the list returned by get_process_id_by_path for the
directory of the executable, `emitOk` tells whether emitting an event of
a given kind succeeds, and `now` embeds get_timestamp. -/
structure Env where
  running : Nat → Bool
  foreground : Nat → Bool
  hasWindow : Nat → Bool
  dirPids : List Nat
  emitOk : EventKind → Bool
  now : Nat

/-- Static data of one monitoring task: the game id and the session
start timestamp taken before the loop. -/
structure Config where
  game_id : Nat
  start_time : Nat

/-- Lifecycle status of the loop: `running` while polling, `ended` after
the loop breaks normally, `aborted` after a required emission failed and
the function returned early with an error. -/
inductive Status
  | running
  | ended
  | aborted
deriving DecidableEq

/-- Mutable state of run_game_monitor, one record per loop iteration. -/
structure MonitorState where
  process_id : Nat
  accumulated_seconds : Nat
  consecutive_failures : Nat
  switched_process : Bool
  status : Status
deriving DecidableEq

/-- Threshold of consecutive liveness failures before the switch attempt
(max_failures in the source). -/
def max_failures : Nat := 3

/-- Embedding of select_best_pid: foreground original first, then the
directory enumeration, then first foreground, first windowed, first
enumerated, and finally the original PID. -/
def select_best_pid (env : Env) (original_pid : Nat) : Nat :=
  if env.foreground original_pid = true then original_pid
  else if env.dirPids.isEmpty = true then original_pid
  else
    match env.dirPids.find? env.foreground with
    | some pid => pid
    | none =>
      match env.dirPids.find? env.hasWindow with
      | some pid => pid
      | none =>
        match env.dirPids.head? with
        | some first_pid => first_pid
        | none => original_pid

/-- Priority policy of spec section 4.2, written from the spec wording,
to be compared with the embedded select_best_pid. -/
def select_best_pid_priority (env : Env) (original_pid : Nat) : Nat :=
  match env.dirPids, env.foreground original_pid with
  | _, true => original_pid
  | [], false => original_pid
  | first :: rest, false =>
    match (first :: rest).find? env.foreground with
    | some pid => pid
    | none =>
      match (first :: rest).find? env.hasWindow with
      | some pid => pid
      | none => first

/-- Result of one loop iteration: the successor state, the events that
were actually delivered during the iteration, whether the switching
branch (failure threshold reached) was entered, and whether the
iteration fell through to the one-second sleep at the bottom of the
loop (false on the continue after adoption and on early error return). -/
structure StepOut where
  state : MonitorState
  events : List Event
  enteredSwitching : Bool
  sleptTick : Bool

/-- Embedding of one iteration of the polling loop of run_game_monitor. -/
def step (cfg : Config) (env : Env) (s : MonitorState) : StepOut :=
  if s.status = Status.running then
    if env.running s.process_id = true then
      if env.foreground s.process_id = true then
        if 0 < s.accumulated_seconds + 1 ∧ (s.accumulated_seconds + 1) % 30 = 0 then
          if env.emitOk EventKind.progress = true then
            { state := { s with consecutive_failures := 0,
                                accumulated_seconds := s.accumulated_seconds + 1 },
              events := [Event.progress cfg.game_id ((s.accumulated_seconds + 1) / 60)
                           (s.accumulated_seconds + 1) cfg.start_time env.now s.process_id],
              enteredSwitching := false, sleptTick := true }
          else
            { state := { s with consecutive_failures := 0,
                                accumulated_seconds := s.accumulated_seconds + 1,
                                status := Status.aborted },
              events := [], enteredSwitching := false, sleptTick := false }
        else
          { state := { s with consecutive_failures := 0,
                              accumulated_seconds := s.accumulated_seconds + 1 },
            events := [], enteredSwitching := false, sleptTick := true }
      else
        { state := { s with consecutive_failures := 0 },
          events := [], enteredSwitching := false, sleptTick := true }
    else
      if max_failures ≤ s.consecutive_failures + 1 then
        if env.dirPids = [] then
          { state := { s with consecutive_failures := s.consecutive_failures + 1,
                              status := Status.ended },
            events := [], enteredSwitching := true, sleptTick := false }
        else
          if s.process_id ≠ select_best_pid env s.process_id ∨ s.switched_process = false then
            if env.running (select_best_pid env s.process_id) = true then
              { state := { s with process_id := select_best_pid env s.process_id,
                                  switched_process := true,
                                  consecutive_failures := 0 },
                events := if env.emitOk EventKind.switched = true then
                    [Event.switched cfg.game_id (select_best_pid env s.process_id)]
                  else [],
                enteredSwitching := true, sleptTick := false }
            else
              { state := { s with consecutive_failures := s.consecutive_failures + 1,
                                  status := Status.ended },
                events := [], enteredSwitching := true, sleptTick := false }
          else
            { state := { s with consecutive_failures := s.consecutive_failures + 1,
                                status := Status.ended },
              events := [], enteredSwitching := true, sleptTick := false }
      else
        { state := { s with consecutive_failures := s.consecutive_failures + 1 },
          events := [], enteredSwitching := false, sleptTick := true }
  else
    { state := s, events := [], enteredSwitching := false, sleptTick := false }

/-- Final rounding after the loop: truncated minutes, plus one when the
leftover seconds reach 30 (lines 196 to 203 of the source). -/
def final_minutes (accumulated_seconds : Nat) : Nat :=
  if 30 ≤ accumulated_seconds % 60 then accumulated_seconds / 60 + 1
  else accumulated_seconds / 60

/-- Initial loop state right after the initial candidate selection. -/
def initState (pid : Nat) : MonitorState :=
  { process_id := pid, accumulated_seconds := 0, consecutive_failures := 0,
    switched_process := false, status := Status.running }

/-- Iterated loop state: the state after n iterations of the loop under
the per-tick environments envs. -/
def iterState (cfg : Config) (envs : Nat → Env) (s : MonitorState) : Nat → MonitorState
  | 0 => s
  | n + 1 => (step cfg (envs n) (iterState cfg envs s n)).state

/-- Events delivered during the first n iterations of the loop. -/
def iterEvents (cfg : Config) (envs : Nat → Env) (s : MonitorState) : Nat → List Event
  | 0 => []
  | n + 1 => iterEvents cfg envs s n ++ (step cfg (envs n) (iterState cfg envs s n)).events

/-- Aggregate result of running the loop to completion or out of fuel:
delivered events, final state, index of the tick after the loop, and
how many iterations entered the switching branch. -/
structure LoopOut where
  events : List Event
  state : MonitorState
  nextIdx : Nat
  switchEntries : Nat

/-- Combination of one iteration with the rest of the loop. -/
def mergeLoop (out : StepOut) (rest : LoopOut) : LoopOut :=
  { events := out.events ++ rest.events, state := rest.state, nextIdx := rest.nextIdx,
    switchEntries := cond out.enteredSwitching 1 0 + rest.switchEntries }

/-- Fuel-bounded embedding of the polling loop, starting at tick index i. -/
def runLoop (cfg : Config) (envs : Nat → Env) : Nat → Nat → MonitorState → LoopOut
  | i, 0, s => { events := [], state := s, nextIdx := i, switchEntries := 0 }
  | i, fuel + 1, s =>
    if s.status = Status.running then
      mergeLoop (step cfg (envs i) s) (runLoop cfg envs (i + 1) fuel (step cfg (envs i) s).state)
    else { events := [], state := s, nextIdx := i, switchEntries := 0 }

/-- Possible outcomes of run_game_monitor: still looping when the fuel
ran out, returned early with an error (a required emission failed), or
returned Ok after emitting the ended event. -/
inductive RunResult
  | outOfFuel (events : List Event)
  | aborted (events : List Event)
  | completed (events : List Event)
deriving DecidableEq

/-- Post-loop part of run_game_monitor: classify the loop outcome and,
on a normal break, emit game-session-ended with the rounded minutes;
the question mark on that emission turns a failure into an early error
return. -/
def monitorFinish (cfg : Config) (envs : Nat → Env) (pid1 : Nat) (lo : LoopOut) : RunResult :=
  match lo.state.status with
  | Status.running => RunResult.outOfFuel (Event.started cfg.game_id pid1 cfg.start_time :: lo.events)
  | Status.aborted => RunResult.aborted (Event.started cfg.game_id pid1 cfg.start_time :: lo.events)
  | Status.ended =>
    if (envs lo.nextIdx).emitOk EventKind.ended = true then
      RunResult.completed (Event.started cfg.game_id pid1 cfg.start_time ::
        (lo.events ++
          [Event.ended cfg.game_id cfg.start_time (envs lo.nextIdx).now
            (final_minutes lo.state.accumulated_seconds)
            lo.state.accumulated_seconds lo.state.process_id]))
    else RunResult.aborted (Event.started cfg.game_id pid1 cfg.start_time :: lo.events)

/-- Embedding of run_game_monitor: initial candidate selection with the
tick-0 snapshot, emission of game-session-started (whose failure is an
immediate error return), then the fuel-bounded loop and the post-loop
finish. -/
def monitorRun (cfg : Config) (envs : Nat → Env) (fuel : Nat) (pid0 : Nat) : RunResult :=
  if (envs 0).emitOk EventKind.started = true then
    monitorFinish cfg envs (select_best_pid (envs 0) pid0)
      (runLoop cfg envs 1 fuel (initState (select_best_pid (envs 0) pid0)))
  else RunResult.aborted []

/-- Number of loop iterations that entered the switching branch during a
monitorRun with the same arguments. -/
def monitorSwitchEntries (cfg : Config) (envs : Nat → Env) (fuel : Nat) (pid0 : Nat) : Nat :=
  (runLoop cfg envs 1 fuel (initState (select_best_pid (envs 0) pid0))).switchEntries

/-- Exit code value that Windows reports for a process that has not
terminated (STILL_ACTIVE). -/
def STILL_ACTIVE : Nat := 259

/-- Outcome of the OS calls made by the Windows is_process_running:
whether OpenProcess returned Ok, whether the returned handle was
invalid, and the exit code written by GetExitCodeProcess (none when the
call itself failed). -/
structure WinQuery where
  openOk : Bool
  handleInvalid : Bool
  exitCode : Option Nat

/-- Embedding of the Windows is_process_running: OpenProcess failure or
an invalid handle yields false, a failed GetExitCodeProcess yields
false, and otherwise the process counts as running exactly when the
exit code equals STILL_ACTIVE. -/
def is_process_running_win (q : WinQuery) : Bool :=
  if q.openOk = true then
    if q.handleInvalid = true then false
    else
      match q.exitCode with
      | some code => code == STILL_ACTIVE
      | none => false
  else false

/-- Embedding of the non-Windows is_process_running: membership of the
PID in the refreshed process table. -/
def is_process_running_unix (processTable : List Nat) (pid : Nat) : Bool :=
  processTable.contains pid

/-- Snapshot of the selector scenario of spec section 8: nothing is
foreground, the directory holds PIDs 100 and 205, and only 205 owns a
visible window. -/
def envScenario : Env :=
  { running := fun _ => false, foreground := fun _ => false,
    hasWindow := fun p => p == 205, dirPids := [100, 205],
    emitOk := fun _ => true, now := 0 }

/-- Snapshot in which the watched process is gone and the directory is
empty; every emission succeeds. -/
def envDead : Env :=
  { running := fun _ => false, foreground := fun _ => false, hasWindow := fun _ => false,
    dirPids := [], emitOk := fun _ => true, now := 77 }

/-- Snapshot in which PID 5 is alive and foreground; every emission
succeeds. -/
def envFg : Env :=
  { running := fun p => p == 5, foreground := fun p => p == 5, hasWindow := fun _ => false,
    dirPids := [5], emitOk := fun _ => true, now := 3 }

/-- Snapshot in which only successor PID 205 is alive, nothing is
foreground, and 205 owns a visible window; every emission succeeds. -/
def envAdopt : Env :=
  { running := fun p => p == 205, foreground := fun _ => false,
    hasWindow := fun p => p == 205, dirPids := [205],
    emitOk := fun _ => true, now := 44 }

/-- Variant of envDead in which emitting the ended event fails. -/
def envEndFail : Env :=
  { envDead with
    emitOk := fun k => match k with | EventKind.ended => false | _ => true, now := 9 }

/-- Variant of envDead in which emitting the started event fails. -/
def envStartFail : Env :=
  { envDead with
    emitOk := fun k => match k with | EventKind.started => false | _ => true }

/-- Variant of envFg in which emitting the progress event fails. -/
def envProgFail : Env :=
  { envFg with
    emitOk := fun k => match k with | EventKind.progress => false | _ => true, now := 9 }

/-- Variant of envAdopt in which emitting the switched event fails. -/
def envSwitchMute : Env :=
  { envAdopt with
    emitOk := fun k => match k with | EventKind.switched => false | _ => true }

/-- Accumulated seconds never decrease across one loop iteration. -/
theorem step_acc_mono (cfg : Config) (env : Env) (s : MonitorState) :
    s.accumulated_seconds ≤ (step cfg env s).state.accumulated_seconds := by
  unfold step
  split_ifs <;> simp

/-- Accumulated seconds never decrease across any number of loop
iterations. -/
theorem iterState_acc_mono (cfg : Config) (envs : Nat → Env) (s : MonitorState)
    {n m : Nat} (h : n ≤ m) :
    (iterState cfg envs s n).accumulated_seconds ≤
      (iterState cfg envs s m).accumulated_seconds := by
  induction m, h using Nat.le_induction with
  | base => exact le_refl _
  | succ m hm ih => exact le_trans ih (step_acc_mono cfg (envs m) (iterState cfg envs s m))

/-- A run that returns Ok produced exactly the started event, then the
loop events, then one ended event whose minutes are the rounded value
of the final accumulated seconds. -/
theorem monitorRun_completed_shape (cfg : Config) (envs : Nat → Env) (fuel pid0 : Nat)
    (evs : List Event) (hc : monitorRun cfg envs fuel pid0 = RunResult.completed evs) :
    evs = Event.started cfg.game_id (select_best_pid (envs 0) pid0) cfg.start_time ::
      ((runLoop cfg envs 1 fuel (initState (select_best_pid (envs 0) pid0))).events ++
        [Event.ended cfg.game_id cfg.start_time
          (envs (runLoop cfg envs 1 fuel (initState (select_best_pid (envs 0) pid0))).nextIdx).now
          (final_minutes
            (runLoop cfg envs 1 fuel (initState (select_best_pid (envs 0) pid0))).state.accumulated_seconds)
          (runLoop cfg envs 1 fuel (initState (select_best_pid (envs 0) pid0))).state.accumulated_seconds
          (runLoop cfg envs 1 fuel (initState (select_best_pid (envs 0) pid0))).state.process_id]) := by
  unfold monitorRun monitorFinish at hc
  split at hc
  · split at hc
    · exact absurd hc (by simp)
    · exact absurd hc (by simp)
    · split at hc
      · injection hc with h
        exact h.symm
      · exact absurd hc (by simp)
  · exact absurd hc (by simp)

/-- C3: for every final accumulated seconds value s (an unsigned 64-bit
integer), the total minutes reported in the ended event equal s / 60
when s % 60 < 30 and s / 60 + 1 when s % 60 >= 30; in particular 89
seconds yield 1 minute, 90 seconds yield 2 minutes, and 29 seconds
yield 0 minutes. -/
theorem final_rounding_law (s : Nat) (hs : s < 2 ^ 64) :
    final_minutes s = (if s % 60 < 30 then s / 60 else s / 60 + 1) ∧
    final_minutes 89 = 1 ∧ final_minutes 90 = 2 ∧ final_minutes 29 = 0 ∧
    (∀ (cfg : Config) (envs : Nat → Env) (fuel pid0 : Nat) (evs : List Event)
      (gid st et tm ts p : Nat),
      monitorRun cfg envs fuel pid0 = RunResult.completed evs →
      evs.getLast? = some (Event.ended gid st et tm ts p) →
      tm = final_minutes ts) := by
  refine ⟨?_, by decide, by decide, by decide, ?_⟩
  · unfold final_minutes
    split_ifs <;> omega
  · intro cfg envs fuel pid0 evs gid st et tm ts p hc hlast
    rw [monitorRun_completed_shape cfg envs fuel pid0 evs hc, ← List.cons_append,
      List.getLast?_concat] at hlast
    injection hlast with h
    injection h with h1 h2 h3 h4 h5 h6
    rw [← h4, ← h5]

/-- Witness for C3 at s = 89. -/
theorem final_rounding_law_witness :
    89 < 2 ^ 64 ∧ final_minutes 89 = 1 :=
  ⟨by norm_num, (final_rounding_law 89 (by norm_num)).2.1⟩

/-- C4: for every fixed snapshot of per-PID foreground and visible
window values and every enumerated PID list, select_best_pid is
deterministic and follows the spec priority order exactly; in the
scenario with original PID 100 not foreground, enumeration [100, 205],
neither foreground and only 205 with a visible window, it returns 205. -/
theorem select_best_pid_priority_order :
    (∀ (env : Env) (original_pid : Nat),
      select_best_pid env original_pid = select_best_pid_priority env original_pid) ∧
    select_best_pid envScenario 100 = 205 := by
  constructor
  · intro env orig
    unfold select_best_pid select_best_pid_priority
    cases hp : env.dirPids with
    | nil => cases hf : env.foreground orig <;> simp [hp, hf]
    | cons a l =>
      cases hf : env.foreground orig <;> simp only [hp, hf] <;> simp
  · decide

/-- C9: the liveness check is a total boolean function of the OS query
outcome; every failure path (OpenProcess error, invalid handle, failed
GetExitCodeProcess) yields false, it reports true exactly when the exit
code query succeeded with STILL_ACTIVE, and the non-Windows variant is
plain membership in the process table. -/
theorem is_process_running_no_panic (q : WinQuery) (processTable : List Nat) (pid : Nat) :
    (q.openOk = false → is_process_running_win q = false) ∧
    (q.handleInvalid = true → is_process_running_win q = false) ∧
    (q.exitCode = none → is_process_running_win q = false) ∧
    (is_process_running_win q = true ↔
      q.openOk = true ∧ q.handleInvalid = false ∧ q.exitCode = some STILL_ACTIVE) ∧
    (is_process_running_unix processTable pid = true ↔ pid ∈ processTable) := by
  obtain ⟨o, h, c⟩ := q
  refine ⟨?_, ?_, ?_, ?_, ?_⟩
  · intro ho; subst ho; rfl
  · intro hh; subst hh; cases o <;> rfl
  · intro hc; subst hc; cases o <;> cases h <;> rfl
  · cases o <;> cases h <;> cases c <;>
      simp [is_process_running_win, STILL_ACTIVE, Nat.beq_eq]
  · simp [is_process_running_unix, List.contains]

/-- Witness for C9 at a failing open and a concrete process table. -/
theorem is_process_running_no_panic_witness :
    is_process_running_win ⟨false, false, none⟩ = false ∧
    (is_process_running_unix [3, 5] 5 = true ↔ 5 ∈ [3, 5]) :=
  ⟨(is_process_running_no_panic ⟨false, false, none⟩ [3, 5] 5).1 rfl,
   (is_process_running_no_panic ⟨false, false, none⟩ [3, 5] 5).2.2.2.2⟩

/-- C10: the minutes field of every progress event is the truncated
quotient of the seconds field by 60, while the ended event applies
half-up rounding, so for the same seconds value t with t % 60 >= 30 the
two reports differ by exactly one. -/
theorem progress_truncation_vs_final_rounding (cfg : Config) (env : Env) (s : MonitorState)
    (t : Nat) (ht : 30 ≤ t % 60) :
    (∀ gid tm ts st ct p,
      Event.progress gid tm ts st ct p ∈ (step cfg env s).events → tm = ts / 60) ∧
    final_minutes t = t / 60 + 1 := by
  constructor
  · intro gid tm ts st ct p hmem
    unfold step at hmem
    split_ifs at hmem <;> simp_all
  · unfold final_minutes
    rw [if_pos ht]

/-- Witness for C10 at the tick reaching 30 accumulated seconds and at
t = 30. -/
theorem progress_truncation_vs_final_rounding_witness :
    (0 : Nat) = 30 / 60 ∧ final_minutes 30 = 30 / 60 + 1 :=
  ⟨(progress_truncation_vs_final_rounding ⟨2, 10⟩ envFg ⟨5, 29, 0, false, Status.running⟩ 30
      (by norm_num)).1 2 0 30 10 3 5 (by decide),
   (progress_truncation_vs_final_rounding ⟨2, 10⟩ envFg ⟨5, 29, 0, false, Status.running⟩ 30
      (by norm_num)).2⟩

/-- C1: during a tick the accumulator grows by exactly 1 when the
watched PID is alive and foreground, stays unchanged on every other
tick, and is monotonically non-decreasing over any tick sequence. -/
theorem acc_increment_iff_alive_foreground (cfg : Config) (envs : Nat → Env) (env : Env)
    (s : MonitorState) (n m : Nat) (hs : s.status = Status.running) (hnm : n ≤ m) :
    ((step cfg env s).state.accumulated_seconds =
      if env.running s.process_id = true ∧ env.foreground s.process_id = true
      then s.accumulated_seconds + 1 else s.accumulated_seconds) ∧
    (iterState cfg envs s n).accumulated_seconds ≤
      (iterState cfg envs s m).accumulated_seconds := by
  constructor
  · unfold step
    rw [if_pos hs]
    by_cases hr : env.running s.process_id = true
    · by_cases hf2 : env.foreground s.process_id = true
      · rw [if_pos (show env.running s.process_id = true ∧ env.foreground s.process_id = true
            from ⟨hr, hf2⟩), if_pos hr, if_pos hf2]
        split_ifs <;> rfl
      · rw [if_neg (show ¬(env.running s.process_id = true ∧ env.foreground s.process_id = true)
            from fun h => hf2 h.2), if_pos hr, if_neg hf2]
    · rw [if_neg (show ¬(env.running s.process_id = true ∧ env.foreground s.process_id = true)
            from fun h => hr h.1), if_neg hr]
      split_ifs <;> rfl
  · exact iterState_acc_mono cfg envs s hnm

/-- Witness for C1 with PID 5 alive and foreground. -/
theorem acc_increment_iff_alive_foreground_witness :
    (step ⟨2, 10⟩ envFg ⟨5, 0, 0, false, Status.running⟩).state.accumulated_seconds = 1 ∧
    (iterState ⟨2, 10⟩ (fun _ => envFg) ⟨5, 0, 0, false, Status.running⟩ 0).accumulated_seconds ≤
      (iterState ⟨2, 10⟩ (fun _ => envFg) ⟨5, 0, 0, false, Status.running⟩ 2).accumulated_seconds :=
  acc_increment_iff_alive_foreground ⟨2, 10⟩ (fun _ => envFg) envFg
    ⟨5, 0, 0, false, Status.running⟩ 0 2 rfl (by norm_num)

/-- C2: starting from a clean failure counter, the first and second
liveness-negative ticks leave everything unchanged except the counter,
the third consecutive negative tick with no adoptable successor ends
the loop with the accumulator frozen, and one alive tick resets the
counter to zero. -/
theorem failure_absorption (cfg : Config) (e1 e2 e3 env : Env) (s t : MonitorState)
    (hs : s.status = Status.running) (hf : s.consecutive_failures = 0)
    (h1 : e1.running s.process_id = false)
    (h2 : e2.running s.process_id = false)
    (h3 : e3.running s.process_id = false)
    (hna : e3.dirPids = [] ∨
      (s.process_id = select_best_pid e3 s.process_id ∧ s.switched_process = true) ∨
      e3.running (select_best_pid e3 s.process_id) = false)
    (ht : t.status = Status.running) (htr : env.running t.process_id = true) :
    (step cfg e1 s).state = { s with consecutive_failures := 1 } ∧
    (step cfg e1 s).events = [] ∧
    (step cfg e2 (step cfg e1 s).state).state = { s with consecutive_failures := 2 } ∧
    (step cfg e2 (step cfg e1 s).state).events = [] ∧
    (step cfg e3 (step cfg e2 (step cfg e1 s).state).state).state.status = Status.ended ∧
    (step cfg e3 (step cfg e2 (step cfg e1 s).state).state).state.accumulated_seconds =
      s.accumulated_seconds ∧
    (step cfg env t).state.consecutive_failures = 0 := by
  have hstep1 : step cfg e1 s = ⟨{ s with consecutive_failures := 1 }, [], false, true⟩ := by
    unfold step
    rw [if_pos hs, if_neg (by simp [h1]), hf]
    rw [if_neg (by norm_num [max_failures])]
  have hstep2 : step cfg e2 ({ s with consecutive_failures := 1 } : MonitorState) =
      ⟨{ s with consecutive_failures := 2 }, [], false, true⟩ := by
    unfold step
    rw [if_pos (by simpa using hs), if_neg (by simpa using (by simp [h2] :
      ¬e2.running s.process_id = true))]
    rw [if_neg (by norm_num [max_failures])]
  have hstep3 : (step cfg e3 ({ s with consecutive_failures := 2 } : MonitorState)).state.status =
        Status.ended ∧
      (step cfg e3 ({ s with consecutive_failures := 2 } : MonitorState)).state.accumulated_seconds =
        s.accumulated_seconds := by
    unfold step
    rw [if_pos (by simpa using hs), if_neg (by simpa using (by simp [h3] :
      ¬e3.running s.process_id = true))]
    rw [if_pos (by norm_num [max_failures])]
    by_cases hd : e3.dirPids = []
    · rw [if_pos hd]
      exact ⟨rfl, rfl⟩
    · rw [if_neg hd]
      rcases hna with hna | ⟨hid, hsw⟩ | hnr
      · exact absurd hna hd
      · rw [if_neg (by push_neg; exact ⟨hid, by simp [hsw]⟩)]
        exact ⟨rfl, rfl⟩
      · by_cases hcond : ({ s with consecutive_failures := 2 } : MonitorState).process_id ≠
            select_best_pid e3 ({ s with consecutive_failures := 2 } : MonitorState).process_id ∨
            ({ s with consecutive_failures := 2 } : MonitorState).switched_process = false
        · rw [if_pos hcond, if_neg (by simpa using (by simp [hnr] :
            ¬e3.running (select_best_pid e3 s.process_id) = true))]
          exact ⟨rfl, rfl⟩
        · rw [if_neg hcond]
          exact ⟨rfl, rfl⟩
  have hstepT : (step cfg env t).state.consecutive_failures = 0 := by
    unfold step
    rw [if_pos ht, if_pos htr]
    split_ifs <;> rfl
  refine ⟨by rw [hstep1], by rw [hstep1], ?_, ?_, ?_, ?_, hstepT⟩
  · rw [hstep1]; exact congrArg StepOut.state hstep2
  · rw [hstep1]; exact congrArg StepOut.events hstep2
  · rw [hstep1]
    show (step cfg e3 (step cfg e2 ({ s with consecutive_failures := 1 } : MonitorState)).state).state.status = Status.ended
    rw [hstep2]
    exact hstep3.1
  · rw [hstep1]
    show (step cfg e3 (step cfg e2 ({ s with consecutive_failures := 1 } : MonitorState)).state).state.accumulated_seconds = s.accumulated_seconds
    rw [hstep2]
    exact hstep3.2

/-- Witness for C2: three dead ticks from a clean counter end the
session with the accumulator frozen at 42, and an alive tick resets the
counter. -/
theorem failure_absorption_witness :
    (step ⟨1, 0⟩ envDead ⟨9, 42, 0, false, Status.running⟩).state =
      ({ process_id := 9, accumulated_seconds := 42, consecutive_failures := 1,
         switched_process := false, status := Status.running } : MonitorState) ∧
    (step ⟨1, 0⟩ envDead
        (step ⟨1, 0⟩ envDead
          (step ⟨1, 0⟩ envDead ⟨9, 42, 0, false, Status.running⟩).state).state).state.status =
      Status.ended ∧
    (step ⟨1, 0⟩ envFg ⟨5, 0, 4, false, Status.running⟩).state.consecutive_failures = 0 := by
  have h := failure_absorption ⟨1, 0⟩ envDead envDead envDead envFg
    ⟨9, 42, 0, false, Status.running⟩ ⟨5, 0, 4, false, Status.running⟩
    rfl rfl rfl rfl rfl (Or.inl rfl) rfl rfl
  exact ⟨h.1, h.2.2.2.2.1, h.2.2.2.2.2.2⟩

/-- C5: at the failure threshold the loop re-runs the candidate
selector; it adopts the selected PID exactly when the selection differs
from the watched PID or no switch has happened yet, and the selection
is confirmed alive — updating the watched PID, setting the switch flag,
resetting the failure counter, emitting the switched event, and staying
in the running state without the end-of-loop sleep; otherwise the loop
ends with the accumulator unchanged. -/
theorem switching_adoption (cfg : Config) (env : Env) (s : MonitorState)
    (hs : s.status = Status.running)
    (hd : env.running s.process_id = false)
    (hth : 2 ≤ s.consecutive_failures) :
    ((env.dirPids ≠ [] ∧
        (s.process_id ≠ select_best_pid env s.process_id ∨ s.switched_process = false) ∧
        env.running (select_best_pid env s.process_id) = true) →
      (step cfg env s).state = { s with process_id := select_best_pid env s.process_id,
                                        switched_process := true,
                                        consecutive_failures := 0 } ∧
      (step cfg env s).state.status = Status.running ∧
      (step cfg env s).sleptTick = false ∧
      (step cfg env s).events = (if env.emitOk EventKind.switched = true then
          [Event.switched cfg.game_id (select_best_pid env s.process_id)] else [])) ∧
    ((env.dirPids = [] ∨
        (s.process_id = select_best_pid env s.process_id ∧ s.switched_process = true) ∨
        env.running (select_best_pid env s.process_id) = false) →
      (step cfg env s).state.status = Status.ended ∧
      (step cfg env s).state.accumulated_seconds = s.accumulated_seconds ∧
      (step cfg env s).events = []) := by
  have hstep : step cfg env s =
      (if env.dirPids = [] then
        ⟨{ s with consecutive_failures := s.consecutive_failures + 1, status := Status.ended },
          [], true, false⟩
      else
        if s.process_id ≠ select_best_pid env s.process_id ∨ s.switched_process = false then
          if env.running (select_best_pid env s.process_id) = true then
            ⟨{ s with process_id := select_best_pid env s.process_id,
                      switched_process := true, consecutive_failures := 0 },
              if env.emitOk EventKind.switched = true then
                [Event.switched cfg.game_id (select_best_pid env s.process_id)]
              else [], true, false⟩
          else
            ⟨{ s with consecutive_failures := s.consecutive_failures + 1,
                      status := Status.ended }, [], true, false⟩
        else
          ⟨{ s with consecutive_failures := s.consecutive_failures + 1,
                    status := Status.ended }, [], true, false⟩) := by
    unfold step
    rw [if_pos hs, if_neg (by simp [hd]), if_pos (by unfold max_failures; omega)]
  constructor
  · rintro ⟨hne, hcond, halive⟩
    rw [hstep, if_neg hne, if_pos hcond, if_pos halive]
    exact ⟨rfl, hs, rfl, rfl⟩
  · intro hno
    by_cases hne : env.dirPids = []
    · rw [hstep, if_pos hne]
      exact ⟨rfl, rfl, rfl⟩
    · rcases hno with hno | ⟨hid, hsw⟩ | hnr
      · exact absurd hno hne
      · rw [hstep, if_neg hne, if_neg (by push_neg; exact ⟨hid, by simp [hsw]⟩)]
        exact ⟨rfl, rfl, rfl⟩
      · by_cases hcond : s.process_id ≠ select_best_pid env s.process_id ∨
            s.switched_process = false
        · rw [hstep, if_neg hne, if_pos hcond, if_neg (by simp [hnr])]
          exact ⟨rfl, rfl, rfl⟩
        · rw [hstep, if_neg hne, if_neg hcond]
          exact ⟨rfl, rfl, rfl⟩

/-- Witness for C5: from watched PID 100 with two prior failures,
the selector picks the alive windowed successor 205 and the loop adopts
it, emitting the switched event. -/
theorem switching_adoption_witness :
    (step ⟨1, 0⟩ envAdopt ⟨100, 42, 2, false, Status.running⟩).state =
      ({ process_id := 205, accumulated_seconds := 42, consecutive_failures := 0,
         switched_process := true, status := Status.running } : MonitorState) ∧
    (step ⟨1, 0⟩ envAdopt ⟨100, 42, 2, false, Status.running⟩).sleptTick = false ∧
    (step ⟨1, 0⟩ envAdopt ⟨100, 42, 2, false, Status.running⟩).events =
      [Event.switched 1 205] := by
  have h := (switching_adoption ⟨1, 0⟩ envAdopt ⟨100, 42, 2, false, Status.running⟩
    rfl rfl (by norm_num)).1 (by decide)
  exact ⟨h.1, h.2.2.1, h.2.2.2⟩

/-- Progress events delivered during one iteration account exactly for
the accumulator crossing a multiple of 30, provided progress emission
succeeds. -/
theorem step_progress_count (cfg : Config) (env : Env) (s : MonitorState)
    (hE : env.emitOk EventKind.progress = true) :
    (step cfg env s).events.countP (isKind EventKind.progress) + s.accumulated_seconds / 30 =
      (step cfg env s).state.accumulated_seconds / 30 := by
  unfold step
  split_ifs <;>
    simp_all [isKind, Event.kind, List.countP_cons, List.countP_nil] <;>
    omega

/-- C8: during an alive and foreground tick a progress event is
delivered exactly when the accumulator, after the increment, is a
positive multiple of 30, carrying the truncated minutes, the seconds,
the start time, the current time and the PID; across any tick sequence
each positive multiple of 30 triggers exactly one progress event. -/
theorem progress_emission_law (cfg : Config) (env : Env) (envs : Nat → Env) (s : MonitorState)
    (hs : s.status = Status.running) (hE : env.emitOk EventKind.progress = true)
    (hEs : ∀ i, (envs i).emitOk EventKind.progress = true) :
    (((step cfg env s).events.countP (isKind EventKind.progress) = 1) ↔
      (env.running s.process_id = true ∧ env.foreground s.process_id = true ∧
        0 < s.accumulated_seconds + 1 ∧ (s.accumulated_seconds + 1) % 30 = 0)) ∧
    ((env.running s.process_id = true ∧ env.foreground s.process_id = true ∧
        (s.accumulated_seconds + 1) % 30 = 0) →
      (step cfg env s).events =
        [Event.progress cfg.game_id ((s.accumulated_seconds + 1) / 60)
          (s.accumulated_seconds + 1) cfg.start_time env.now s.process_id]) ∧
    (∀ n, (iterEvents cfg envs s n).countP (isKind EventKind.progress) +
        s.accumulated_seconds / 30 =
      (iterState cfg envs s n).accumulated_seconds / 30) := by
  refine ⟨?_, ?_, ?_⟩
  · by_cases hr : env.running s.process_id = true
    · by_cases hf : env.foreground s.process_id = true
      · unfold step
        rw [if_pos hs, if_pos hr, if_pos hf]
        by_cases hm : 0 < s.accumulated_seconds + 1 ∧ (s.accumulated_seconds + 1) % 30 = 0
        · rw [if_pos hm, if_pos hE]
          simp [isKind, Event.kind, hr, hf, hm.1, hm.2]
        · rw [if_neg hm]
          simp only [List.countP_nil, isKind, hr, hf, true_and]
          constructor
          · intro h0
            exact absurd h0 (by norm_num)
          · intro h0
            exact absurd ⟨h0.1, h0.2⟩ hm
      · unfold step
        rw [if_pos hs, if_pos hr, if_neg hf]
        simp [hf]
    · unfold step
      rw [if_pos hs, if_neg hr]
      split_ifs <;> simp [isKind, Event.kind, hr]
  · rintro ⟨hr, hf, hm⟩
    unfold step
    rw [if_pos hs, if_pos hr, if_pos hf, if_pos ⟨Nat.succ_pos _, hm⟩, if_pos hE]
  · intro n
    induction n with
    | zero => simp [iterEvents, iterState]
    | succ n ih =>
      have h := step_progress_count cfg (envs n) (iterState cfg envs s n) (hEs n)
      rw [show iterEvents cfg envs s (n + 1) =
            iterEvents cfg envs s n ++ (step cfg (envs n) (iterState cfg envs s n)).events
          from rfl,
        show iterState cfg envs s (n + 1) = (step cfg (envs n) (iterState cfg envs s n)).state
          from rfl,
        List.countP_append]
      omega

/-- Witness for C8 at the tick that lifts the accumulator from 29 to
30 seconds. -/
theorem progress_emission_law_witness :
    (step ⟨2, 10⟩ envFg ⟨5, 29, 0, false, Status.running⟩).events =
      [Event.progress 2 0 30 10 3 5] ∧
    (iterEvents ⟨2, 10⟩ (fun _ => envFg) ⟨5, 0, 0, false, Status.running⟩ 61).countP
        (isKind EventKind.progress) + 0 / 30 =
      (iterState ⟨2, 10⟩ (fun _ => envFg) ⟨5, 0, 0, false, Status.running⟩ 61).accumulated_seconds / 30 := by
  have h := progress_emission_law ⟨2, 10⟩ envFg (fun _ => envFg)
    ⟨5, 29, 0, false, Status.running⟩ rfl rfl (fun _ => rfl)
  have h2 := progress_emission_law ⟨2, 10⟩ envFg (fun _ => envFg)
    ⟨5, 0, 0, false, Status.running⟩ rfl rfl (fun _ => rfl)
  exact ⟨h.2.1 ⟨rfl, rfl, by norm_num⟩, h2.2.2 61⟩

/-- Events delivered during one loop iteration are switched or progress
events carrying the game id of the task, and at most one switched event
is delivered, only when the switching branch was entered. -/
theorem step_events_shape (cfg : Config) (env : Env) (s : MonitorState) :
    (∀ e ∈ (step cfg env s).events,
      (e.kind = EventKind.switched ∨ e.kind = EventKind.progress) ∧ e.gameId = cfg.game_id) ∧
    (step cfg env s).events.countP (isKind EventKind.switched) ≤
      cond (step cfg env s).enteredSwitching 1 0 := by
  unfold step
  split_ifs <;>
    simp [isKind, Event.kind, Event.gameId, List.countP_cons, List.countP_nil]

/-- Events delivered during the whole loop are switched or progress
events with the game id of the task, and the switched events are
bounded by the number of switching-branch entries. -/
theorem runLoop_events_shape (cfg : Config) (envs : Nat → Env) :
    ∀ (fuel i : Nat) (s : MonitorState),
      (∀ e ∈ (runLoop cfg envs i fuel s).events,
        (e.kind = EventKind.switched ∨ e.kind = EventKind.progress) ∧
          e.gameId = cfg.game_id) ∧
      (runLoop cfg envs i fuel s).events.countP (isKind EventKind.switched) ≤
        (runLoop cfg envs i fuel s).switchEntries := by
  intro fuel
  induction fuel with
  | zero =>
    intro i s
    simp [runLoop]
  | succ fuel ih =>
    intro i s
    by_cases hst : s.status = Status.running
    · rw [show runLoop cfg envs i (fuel + 1) s =
          if s.status = Status.running then
            mergeLoop (step cfg (envs i) s)
              (runLoop cfg envs (i + 1) fuel (step cfg (envs i) s).state)
          else { events := [], state := s, nextIdx := i, switchEntries := 0 }
        from rfl, if_pos hst]
      obtain ⟨ha, hb⟩ := step_events_shape cfg (envs i) s
      obtain ⟨hc, hd⟩ := ih (i + 1) (step cfg (envs i) s).state
      constructor
      · intro e he
        rcases List.mem_append.mp (by simpa [mergeLoop] using he) with h | h
        · exact ha e h
        · exact hc e h
      · show (mergeLoop (step cfg (envs i) s)
            (runLoop cfg envs (i + 1) fuel (step cfg (envs i) s).state)).events.countP
              (isKind EventKind.switched) ≤ _
        unfold mergeLoop
        rw [List.countP_append]
        exact Nat.add_le_add hb hd
    · rw [show runLoop cfg envs i (fuel + 1) s =
          if s.status = Status.running then
            mergeLoop (step cfg (envs i) s)
              (runLoop cfg envs (i + 1) fuel (step cfg (envs i) s).state)
          else { events := [], state := s, nextIdx := i, switchEntries := 0 }
        from rfl, if_neg hst]
      simp

/-- C6: a task that runs to completion delivers exactly one started and
one ended event, first and last, with only switched or progress events
strictly between them, the switched count bounded by the number of
switching-branch entries, and every event carrying the game id of the
task in the single emission order of the loop. -/
theorem monitor_event_protocol (cfg : Config) (envs : Nat → Env) (fuel pid0 : Nat)
    (evs : List Event) (hc : monitorRun cfg envs fuel pid0 = RunResult.completed evs) :
    evs.countP (isKind EventKind.started) = 1 ∧
    evs.countP (isKind EventKind.ended) = 1 ∧
    (∃ e, evs.head? = some e ∧ e.kind = EventKind.started) ∧
    (∃ e, evs.getLast? = some e ∧ e.kind = EventKind.ended) ∧
    (∀ e ∈ (evs.drop 1).dropLast,
      e.kind = EventKind.switched ∨ e.kind = EventKind.progress) ∧
    evs.countP (isKind EventKind.switched) ≤ monitorSwitchEntries cfg envs fuel pid0 ∧
    (∀ e ∈ evs, e.gameId = cfg.game_id) := by
  have hsh := monitorRun_completed_shape cfg envs fuel pid0 evs hc
  obtain ⟨hk, hcnt⟩ :=
    runLoop_events_shape cfg envs fuel 1 (initState (select_best_pid (envs 0) pid0))
  subst hsh
  have hnotstarted : ∀ e ∈ (runLoop cfg envs 1 fuel
      (initState (select_best_pid (envs 0) pid0))).events,
      ¬(isKind EventKind.started e = true) := by
    intro e he
    rcases hk e he with ⟨h | h, -⟩ <;> simp [isKind, h]
  have hnotended : ∀ e ∈ (runLoop cfg envs 1 fuel
      (initState (select_best_pid (envs 0) pid0))).events,
      ¬(isKind EventKind.ended e = true) := by
    intro e he
    rcases hk e he with ⟨h | h, -⟩ <;> simp [isKind, h]
  have hnotswitchedS : isKind EventKind.switched
      (Event.started cfg.game_id (select_best_pid (envs 0) pid0) cfg.start_time) = false := by
    simp [isKind, Event.kind]
  refine ⟨?_, ?_, ?_, ?_, ?_, ?_, ?_⟩
  · rw [List.countP_cons, List.countP_append, List.countP_cons, List.countP_nil,
      List.countP_eq_zero.mpr hnotstarted]
    simp [isKind, Event.kind]
  · rw [List.countP_cons, List.countP_append, List.countP_cons, List.countP_nil,
      List.countP_eq_zero.mpr hnotended]
    simp [isKind, Event.kind]
  · exact ⟨_, rfl, rfl⟩
  · refine ⟨Event.ended cfg.game_id cfg.start_time
      (envs (runLoop cfg envs 1 fuel (initState (select_best_pid (envs 0) pid0))).nextIdx).now
      (final_minutes
        (runLoop cfg envs 1 fuel (initState (select_best_pid (envs 0) pid0))).state.accumulated_seconds)
      (runLoop cfg envs 1 fuel (initState (select_best_pid (envs 0) pid0))).state.accumulated_seconds
      (runLoop cfg envs 1 fuel (initState (select_best_pid (envs 0) pid0))).state.process_id,
      ?_, rfl⟩
    rw [← List.cons_append, List.getLast?_concat]
  · intro e he
    rw [List.drop_one, List.tail_cons, List.dropLast_concat] at he
    exact (hk e he).1
  · rw [List.countP_cons, List.countP_append, List.countP_cons, List.countP_nil,
      hnotswitchedS]
    unfold monitorSwitchEntries
    simpa [isKind, Event.kind] using hcnt
  · intro e he
    rcases List.mem_cons.mp he with h | h
    · subst h; rfl
    · rcases List.mem_append.mp h with h | h
      · exact (hk e h).2
      · rw [List.mem_singleton.mp h]; rfl

/-- Witness for C6 on a concrete completed run with no alive ticks. -/
theorem monitor_event_protocol_witness :
    ([Event.started 1 7 50, Event.ended 1 50 77 0 0 7].countP (isKind EventKind.started) = 1) ∧
    ([Event.started 1 7 50, Event.ended 1 50 77 0 0 7].countP (isKind EventKind.switched) ≤
      monitorSwitchEntries ⟨1, 50⟩ (fun _ => envDead) 5 7) := by
  have h := monitor_event_protocol ⟨1, 50⟩ (fun _ => envDead) 5 7
    [Event.started 1 7 50, Event.ended 1 50 77 0 0 7] (by decide)
  exact ⟨h.1, h.2.2.2.2.2.1⟩

/-- C7 counterexample: in a run in which only the ended emission fails
(every other emission succeeds and the watched process is simply gone),
the task finishes as an error return — the aborted result — refuting
the claim that an ended emission error does not make the task abort as
an error. -/
theorem ended_emission_error_propagates_cex :
    monitorRun ⟨1, 50⟩ (fun _ => envEndFail) 5 7 =
      RunResult.aborted [Event.started 1 7 50] := by
  decide

/-- C7 amended: a started emission failure aborts the task at once with
no events delivered, every aborted run contains no ended event, a
progress emission failure aborts the task mid-loop, a switched emission
failure is swallowed (the adoption still happens and the loop
continues), and an ended emission failure is likewise propagated as an
error return — although by then the loop has already finished. -/
theorem emission_failure_policy :
    (∀ (cfg : Config) (envs : Nat → Env) (fuel pid0 : Nat),
      (envs 0).emitOk EventKind.started = false →
      monitorRun cfg envs fuel pid0 = RunResult.aborted []) ∧
    (∀ (cfg : Config) (envs : Nat → Env) (fuel pid0 : Nat) (evs : List Event),
      monitorRun cfg envs fuel pid0 = RunResult.aborted evs →
      evs.countP (isKind EventKind.ended) = 0) ∧
    (∀ (cfg : Config) (env : Env) (s : MonitorState),
      s.status = Status.running → env.running s.process_id = true →
      env.foreground s.process_id = true → (s.accumulated_seconds + 1) % 30 = 0 →
      env.emitOk EventKind.progress = false →
      (step cfg env s).state.status = Status.aborted ∧ (step cfg env s).events = []) ∧
    (∀ (cfg : Config) (env : Env) (s : MonitorState),
      s.status = Status.running → env.running s.process_id = false →
      2 ≤ s.consecutive_failures → env.dirPids ≠ [] →
      (s.process_id ≠ select_best_pid env s.process_id ∨ s.switched_process = false) →
      env.running (select_best_pid env s.process_id) = true →
      env.emitOk EventKind.switched = false →
      (step cfg env s).state = { s with process_id := select_best_pid env s.process_id,
                                        switched_process := true,
                                        consecutive_failures := 0 } ∧
      (step cfg env s).state.status = Status.running ∧ (step cfg env s).events = []) ∧
    (∀ (cfg : Config) (envs : Nat → Env) (pid1 : Nat) (lo : LoopOut),
      lo.state.status = Status.ended →
      (envs lo.nextIdx).emitOk EventKind.ended = false →
      monitorFinish cfg envs pid1 lo =
        RunResult.aborted (Event.started cfg.game_id pid1 cfg.start_time :: lo.events)) := by
  refine ⟨?_, ?_, ?_, ?_, ?_⟩
  · intro cfg envs fuel pid0 h
    unfold monitorRun
    rw [if_neg (by simp [h])]
  · intro cfg envs fuel pid0 evs h
    have hnotended : ∀ e ∈ (runLoop cfg envs 1 fuel
        (initState (select_best_pid (envs 0) pid0))).events,
        ¬(isKind EventKind.ended e = true) := by
      intro e he
      rcases (runLoop_events_shape cfg envs fuel 1
        (initState (select_best_pid (envs 0) pid0))).1 e he with ⟨hk | hk, -⟩ <;>
        simp [isKind, hk]
    unfold monitorRun monitorFinish at h
    split at h
    · split at h
      · exact absurd h (by simp)
      · injection h with h2
        rw [← h2, List.countP_cons, List.countP_eq_zero.mpr hnotended]
        simp [isKind, Event.kind]
      · split at h
        · exact absurd h (by simp)
        · injection h with h2
          rw [← h2, List.countP_cons, List.countP_eq_zero.mpr hnotended]
          simp [isKind, Event.kind]
    · injection h with h2
      rw [← h2]
      rfl
  · intro cfg env s hs hr hf hm hEp
    unfold step
    rw [if_pos hs, if_pos hr, if_pos hf, if_pos ⟨Nat.succ_pos _, hm⟩,
      if_neg (by simp [hEp])]
    exact ⟨rfl, rfl⟩
  · intro cfg env s hs hd hth hne hcond halive hmute
    unfold step
    rw [if_pos hs, if_neg (by simp [hd]), if_pos (by unfold max_failures; omega),
      if_neg hne, if_pos hcond, if_pos halive, if_neg (by simp [hmute])]
    exact ⟨rfl, hs, rfl⟩
  · intro cfg envs pid1 lo hst hE
    unfold monitorFinish
    rw [hst]
    exact if_neg (by simp [hE])

/-- Witness for C7 instantiating each amended clause on concrete runs
and ticks. -/
theorem emission_failure_policy_witness :
    monitorRun ⟨1, 50⟩ (fun _ => envStartFail) 3 5 = RunResult.aborted [] ∧
    ([Event.started 1 7 50].countP (isKind EventKind.ended) = 0) ∧
    (step ⟨2, 10⟩ envProgFail ⟨5, 29, 0, false, Status.running⟩).state.status = Status.aborted ∧
    (step ⟨2, 10⟩ envSwitchMute ⟨100, 42, 2, false, Status.running⟩).events = [] ∧
    monitorFinish ⟨1, 50⟩ (fun _ => envEndFail) 7
        ⟨[], ⟨7, 0, 3, false, Status.ended⟩, 4, 1⟩ =
      RunResult.aborted [Event.started 1 7 50] := by
  refine ⟨emission_failure_policy.1 ⟨1, 50⟩ (fun _ => envStartFail) 3 5 rfl,
    emission_failure_policy.2.1 ⟨1, 50⟩ (fun _ => envEndFail) 5 7 [Event.started 1 7 50]
      (by decide),
    (emission_failure_policy.2.2.1 ⟨2, 10⟩ envProgFail ⟨5, 29, 0, false, Status.running⟩
      rfl rfl rfl (by norm_num) rfl).1,
    (emission_failure_policy.2.2.2.1 ⟨2, 10⟩ envSwitchMute ⟨100, 42, 2, false, Status.running⟩
      rfl rfl (by norm_num) (by decide) (Or.inl (by decide)) rfl rfl).2.2,
    emission_failure_policy.2.2.2.2 ⟨1, 50⟩ (fun _ => envEndFail) 7
      ⟨[], ⟨7, 0, 3, false, Status.ended⟩, 4, 1⟩ rfl rfl⟩

end GameMonitor
